import Mathlib

/-!
Verification of the address-space wrapper layer of
`include/CL/implementation/sycl-address-spaces.hpp`.

The development shallowly embeds the compile-time machinery of the header:

* `address_space` mirrors the five enumerators of `cl::sycl::address_space`
  used by the header (the enumeration itself is declared elsewhere in the
  repository).
* `CppType` is a structural model of C++ value types as inspected by the
  dispatch at lines 101-110 (`std::is_pointer` / `std::is_class` /
  `std::is_array`), and `OpenCLType` models the qualifier-injection template
  of lines 24-77, with the `__SYCL_DEVICE_ONLY__` preprocessor condition made
  an explicit boolean parameter.
* The value-level behavior of the wrapper classes is embedded generically
  over a Lean type `α` standing for the wrapped C++ value type: each wrapper
  class becomes a one-field structure (its single storage slot / base
  subobject), and each constructor and conversion operator becomes a Lean
  function transcribed from the corresponding member at the cited lines.
-/

namespace Trisycl

/-- Address-space enumeration.  `cl::sycl::address_space` is declared
elsewhere in the repository; this header uses exactly these five
enumerators (`constant_address_space`, `generic_address_space`,
`global_address_space`, `local_address_space`, `private_address_space`). -/
inductive address_space
  | generic_address_space
  | global_address_space
  | local_address_space
  | private_address_space
  | constant_address_space
  deriving DecidableEq, BEq

/-- Structural model of a C++ value type, carrying exactly the shape
information inspected by the header: whether the type is a pointer
(`std::is_pointer`), a class (`std::is_class`), or an array
(`std::is_array`).  Distinct fundamental and class types are told apart by a
numeric tag. -/
inductive CppType
  | fundamental (tag : Nat)
  | pointer (pointee : CppType)
  | array (elem : CppType) (n : Nat)
  | cppclass (tag : Nat)
  deriving DecidableEq, BEq

/-- Model of `std::is_pointer<T>::value`: true exactly for pointer types. -/
def is_pointer : CppType → Bool
  | CppType.pointer _ => true
  | _ => false

/-- Model of `std::is_class<T>::value`: true exactly for class types. -/
def is_class : CppType → Bool
  | CppType.cppclass _ => true
  | _ => false

/-- Model of `std::is_array<T>::value`: true exactly for array types. -/
def is_array : CppType → Bool
  | CppType.array _ _ => true
  | _ => false

/-- The four wrapper implementation classes that the alias
`AddressSpaceImpl` can select between (lines 80-92 of the header). -/
inductive WrapperCategory
  | pointerImpl
  | objectImpl
  | arrayImpl
  | fundamentalImpl
  deriving DecidableEq, BEq

/-- Model of the dispatch alias `AddressSpaceImpl<T, AS>` (lines 101-110):
a chain of `std::conditional`, tested in the fixed order
`std::is_pointer`, then `std::is_class`, then `std::is_array`, with
`AddressSpaceFundamentalImpl` as the final default. -/
def AddressSpaceImplSelect (t : CppType) : WrapperCategory :=
  if is_pointer t then WrapperCategory.pointerImpl
  else if is_class t then WrapperCategory.objectImpl
  else if is_array t then WrapperCategory.arrayImpl
  else WrapperCategory.fundamentalImpl

/-- OpenCL address-space qualifiers that `OpenCLType` can attach on a
device build (`__constant`, `__generic`, `__global`, `__local`,
`__private`). -/
inductive ASQualifier
  | q_constant
  | q_generic
  | q_global
  | q_local
  | q_private
  deriving DecidableEq, BEq

/-- A possibly address-space-qualified C++ type: the result of
`OpenCLType<T, AS>::type`.  On a host build the qualifier component is
`none` and the type is just the base type. -/
structure QualifiedType where
  qualifier : Option ASQualifier
  base : CppType
  deriving DecidableEq, BEq

/-- Model of `OpenCLType<T, AS>::type` (lines 24-77).  The template has one
specialization per enumerator; inside each specialization the qualifier is
added only under `#ifdef __SYCL_DEVICE_ONLY__`, which is modelled by the
explicit boolean `sycl_device_only`.  On a host build
(`sycl_device_only = false`) every case leaves the type unqualified. -/
def OpenCLType (sycl_device_only : Bool) (t : CppType) (as : address_space) : QualifiedType :=
  match as with
  | address_space.constant_address_space =>
      { qualifier := if sycl_device_only then some ASQualifier.q_constant else none, base := t }
  | address_space.generic_address_space =>
      { qualifier := if sycl_device_only then some ASQualifier.q_generic else none, base := t }
  | address_space.global_address_space =>
      { qualifier := if sycl_device_only then some ASQualifier.q_global else none, base := t }
  | address_space.local_address_space =>
      { qualifier := if sycl_device_only then some ASQualifier.q_local else none, base := t }
  | address_space.private_address_space =>
      { qualifier := if sycl_device_only then some ASQualifier.q_private else none, base := t }

/-- The unqualified view of a type: what `AddressSpaceBaseImpl<T, AS>::type`
(line 128) denotes. -/
def plainQualifiedType (t : CppType) : QualifiedType :=
  { qualifier := none, base := t }

/-- Value-level model of `AddressSpaceVariableImpl<T, AS>` (lines 149-190):
one storage slot `variable` of type `opencl_type` (on a host build the same
representation as `T`).  The field is written `variable_` because `variable`
is reserved in Lean. -/
structure AddressSpaceVariableImpl (α : Type) (AS : address_space) where
  variable_ : α
  deriving DecidableEq, BEq

/-- Model of the constructor `AddressSpaceVariableImpl(const T & v)
: variable(v)` (line 174): copies the argument into the slot. -/
def AddressSpaceVariableImpl.ctorFromValue {α : Type} (AS : address_space) (v : α) :
    AddressSpaceVariableImpl α AS :=
  { variable_ := v }

/-- Model of the defaulted constructor `AddressSpaceVariableImpl() = default`
(line 178): the slot is left exactly as default construction of a plain `T`
leaves it.  The (possibly indeterminate) contents that default construction
of `T` produces are passed in as `dflt`. -/
def AddressSpaceVariableImpl.ctorDefault {α : Type} (AS : address_space) (dflt : α) :
    AddressSpaceVariableImpl α AS :=
  { variable_ := dflt }

/-- Reading through the reference returned by `operator opencl_type & ()
{ return variable; }` (line 188): a read through the returned reference
observes the slot. -/
def AddressSpaceVariableImpl.operatorRefGet {α : Type} {AS : address_space}
    (w : AddressSpaceVariableImpl α AS) : α :=
  w.variable_

/-- Writing through the reference returned by `operator opencl_type & ()`
(line 188): the operator returns a non-const reference to the member
`variable`, so an assignment through it replaces the slot and touches
nothing else. -/
def AddressSpaceVariableImpl.operatorRefSet {α : Type} {AS : address_space}
    (w : AddressSpaceVariableImpl α AS) (x : α) :
    AddressSpaceVariableImpl α AS :=
  { w with variable_ := x }

/-- Model of `AddressSpaceFundamentalImpl<T, AS>` (lines 201-247): it
inherits `AddressSpaceVariableImpl` and adds no state, only the
cross-wrapper converting constructor and a re-defaulted default
constructor; its storage and conversions are those of the parent. -/
abbrev AddressSpaceFundamentalImpl (α : Type) (AS : address_space) :=
  AddressSpaceVariableImpl α AS

/-- Model of the cross-wrapper constructor (lines 239-245):

`AddressSpaceFundamentalImpl(AddressSpaceFundamentalImpl<SomeType, SomeAS>& v)
 { super::variable = SomeType(v); }`

The member is first default-initialized (contents `dflt`), then the body
converts `v` to `SomeType` through the conversion operator of the source
wrapper (which yields the source slot) and assigns the result to the slot,
going through `T`'s conversion from `SomeType`, modelled by `conv`. -/
def AddressSpaceFundamentalImpl.crossCtor {α β : Type} (AS1 AS2 : address_space)
    (conv : α → β) (dflt : β) (v : AddressSpaceFundamentalImpl α AS1) :
    AddressSpaceFundamentalImpl β AS2 :=
  let w : AddressSpaceVariableImpl β AS2 := AddressSpaceVariableImpl.ctorDefault AS2 dflt
  { w with variable_ := conv (AddressSpaceVariableImpl.operatorRefGet v) }

/-- Specification-side definition, for comparison with
`AddressSpaceFundamentalImpl.crossCtor`: following the spec words, the
cross-wrapper construction of `B` from `A` is converting `A` to a plain
`T1`, then converting that `T1` value to `T2` by `T2`'s normal conversion
rules, and wrapping the result. -/
def crossConversionSpec {α β : Type} (AS1 AS2 : address_space)
    (conv : α → β) (v : AddressSpaceFundamentalImpl α AS1) :
    AddressSpaceFundamentalImpl β AS2 :=
  AddressSpaceVariableImpl.ctorFromValue AS2
    (conv (AddressSpaceVariableImpl.operatorRefGet v))

/-- Model of `AddressSpacePointerImpl<T, AS>` (lines 259-271): it inherits
`AddressSpaceFundamentalImpl`, adds no members and no behavior of its own
(only the `static_assert` and a `using` of the inherited constructors). -/
abbrev AddressSpacePointerImpl (α : Type) (AS : address_space) :=
  AddressSpaceFundamentalImpl α AS

/-- Model of the `static_assert(std::is_pointer<T>::value, ...)` at lines
262-263: instantiating `AddressSpacePointerImpl<T, AS>` is well-formed
exactly when this compile-time predicate holds of `T`. -/
def AddressSpacePointerImplAssertPasses (t : CppType) : Bool :=
  is_pointer t

/-- Construction of a pointer wrapper from a value: inherited unchanged from
the scalar chain through `using super::AddressSpaceFundamentalImpl`
(line 269). -/
def AddressSpacePointerImpl.ctorFromValue {α : Type} (AS : address_space) (v : α) :
    AddressSpacePointerImpl α AS :=
  AddressSpaceVariableImpl.ctorFromValue AS v

/-- Default construction of a pointer wrapper: the class declares no
constructor of its own (a `using` of inherited constructors does not
suppress the implicit default constructor), so the implicit default
constructor default-constructs the `AddressSpaceFundamentalImpl` base. -/
def AddressSpacePointerImpl.ctorDefault {α : Type} (AS : address_space) (dflt : α) :
    AddressSpacePointerImpl α AS :=
  AddressSpaceVariableImpl.ctorDefault AS dflt

/-- Cross-wrapper construction of a pointer wrapper: inherited unchanged
from `AddressSpaceFundamentalImpl` (line 269). -/
def AddressSpacePointerImpl.crossCtor {α β : Type} (AS1 AS2 : address_space)
    (conv : α → β) (dflt : β) (v : AddressSpaceFundamentalImpl α AS1) :
    AddressSpacePointerImpl β AS2 :=
  AddressSpaceFundamentalImpl.crossCtor AS1 AS2 conv dflt v

/-- Conversion of a pointer wrapper back to its value: the inherited
`operator opencl_type & ()` of `AddressSpaceVariableImpl` (line 188). -/
def AddressSpacePointerImpl.operatorRefGet {α : Type} {AS : address_space}
    (w : AddressSpacePointerImpl α AS) : α :=
  AddressSpaceVariableImpl.operatorRefGet w

/-- Writing through the conversion reference of a pointer wrapper: the
inherited `operator opencl_type & ()` of `AddressSpaceVariableImpl`. -/
def AddressSpacePointerImpl.operatorRefSet {α : Type} {AS : address_space}
    (w : AddressSpacePointerImpl α AS) (x : α) :
    AddressSpacePointerImpl α AS :=
  AddressSpaceVariableImpl.operatorRefSet w x

/-- Value-level model of `AddressSpaceArrayImpl<T, AS>` (lines 280-360) for
an element type `α` and array length `n`: one storage slot holding the `n`
elements of the member `variable`, modelled as a function from indices. -/
structure AddressSpaceArrayImpl (α : Type) (AS : address_space) (n : Nat) where
  variable_ : Fin n → α

/-- Model of `AddressSpaceArrayImpl(const T &array)` (lines 300-302): the
member is default-initialized (contents `init`), then
`std::copy(std::begin(array), std::end(array), std::begin(variable))`
copies every element of the source, in index order, over the slot.  The
source has exactly the array type `T`, so its length equals the
destination's by the C++ type; the default-initialized contents are fully
overwritten. -/
def AddressSpaceArrayImpl.ctorFromArray {α : Type} (AS : address_space) {n : Nat}
    (_init src : Fin n → α) : AddressSpaceArrayImpl α AS n :=
  { variable_ := fun i => src i }

/-- Model of the initializer-list constructor (lines 309-311): the member is
default-initialized (contents `init`), then
`std::copy(std::begin(list), std::end(list), std::begin(variable))` writes
the `list.length` list elements, in list order, over the first
`list.length` slots.  No length validation is performed; when the list is
longer than the array, `std::copy` writes past the end of `variable`, which
is undefined behavior in the source and is modelled as `none`. -/
def AddressSpaceArrayImpl.ctorFromList {α : Type} (AS : address_space) {n : Nat}
    (init : Fin n → α) (list : List α) :
    Option (AddressSpaceArrayImpl α AS n) :=
  if _ : list.length ≤ n then
    some { variable_ := fun i =>
      if hi : i.val < list.length then list.get ⟨i.val, hi⟩ else init i }
  else none

/-- Model of `AddressSpaceArrayImpl() = default` (line 323): every slot is
left exactly as default construction of a plain `T` array leaves it. -/
def AddressSpaceArrayImpl.ctorDefault {α : Type} (AS : address_space) {n : Nat}
    (init : Fin n → α) : AddressSpaceArrayImpl α AS n :=
  { variable_ := init }

/-- Reading element `i` through the reference returned by
`operator opencl_type & () { return variable; }` (line 358). -/
def AddressSpaceArrayImpl.operatorRefGetAt {α : Type} {AS : address_space} {n : Nat}
    (w : AddressSpaceArrayImpl α AS n) (i : Fin n) : α :=
  w.variable_ i

/-- Writing element `i` through the reference returned by
`operator opencl_type & ()` (line 358): the operator returns a non-const
reference to the member `variable`, so an assignment to element `i` through
it replaces that element and leaves every other element unchanged. -/
def AddressSpaceArrayImpl.operatorRefSetAt {α : Type} {AS : address_space} {n : Nat}
    (w : AddressSpaceArrayImpl α AS n) (i : Fin n) (x : α) :
    AddressSpaceArrayImpl α AS n :=
  { variable_ := fun j => if j = i then x else w.variable_ j }

/-- Value-level model of `AddressSpaceObjectImpl<T, AS>` (lines 376-404):
the class publicly inherits `OpenCLType<T, AS>::type` (on a host build,
`T` itself), so its state is that base subobject of type `T`. -/
structure AddressSpaceObjectImpl (α : Type) (AS : address_space) where
  opencl_subobject : α
  deriving DecidableEq, BEq

/-- Model of `AddressSpaceObjectImpl(T && v) : opencl_type(v) { }`
(line 394): the base subobject is constructed from `v`. -/
def AddressSpaceObjectImpl.ctorFromRValue {α : Type} (AS : address_space) (v : α) :
    AddressSpaceObjectImpl α AS :=
  { opencl_subobject := v }

/-- Conversion of an object wrapper back to a `T`: since the wrapper
publicly inherits `opencl_type` (= `T` on a host build), binding a `T`
reference to the wrapper uses the standard derived-to-base conversion to
the public base subobject, which outranks the user-defined conversion
operator; the value obtained is the base subobject. -/
def AddressSpaceObjectImpl.toOpenclBase {α : Type} {AS : address_space}
    (w : AddressSpaceObjectImpl α AS) : α :=
  w.opencl_subobject

/-- Possible results of the object wrapper's conversion operator body:
either a reference to the `opencl_type` base subobject (what `return *this;`
would produce, and what the declared return type `opencl_type &` calls
for), or the `this` pointer to the whole wrapper object. -/
inductive ObjectConversionResult (α : Type) (AS : address_space)
  | delegateRef (v : α)
  | selfPointer (w : AddressSpaceObjectImpl α AS)
  deriving DecidableEq, BEq

/-- Discriminator: whether the conversion operator produced a reference to
the base subobject. -/
def ObjectConversionResult.isDelegateRef {α : Type} {AS : address_space} :
    ObjectConversionResult α AS → Bool
  | ObjectConversionResult.delegateRef _ => true
  | ObjectConversionResult.selfPointer _ => false

/-- Transcription of the body of `operator opencl_type & () { return this; }`
(line 402): the operator returns `this`, the pointer to the wrapper object
itself, although its declared return type is a reference to `opencl_type`.
In C++ there is no conversion from that pointer to the reference type, so
the definition is ill-formed whenever it is instantiated; the value the
body designates is the self pointer, not the base subobject. -/
def AddressSpaceObjectImpl.operatorOpenclRef {α : Type} {AS : address_space}
    (w : AddressSpaceObjectImpl α AS) : ObjectConversionResult α AS :=
  ObjectConversionResult.selfPointer w

/-- C1: for every value type, region tag and value `v`, constructing a
wrapper from `v` and converting it back yields a value equal to `v`, in
every wrapper category: scalar (`AddressSpaceVariableImpl` /
`AddressSpaceFundamentalImpl`), pointer (`AddressSpacePointerImpl`), array
(`AddressSpaceArrayImpl`, element by element), and object
(`AddressSpaceObjectImpl`, whose conversion to `T` goes through the public
`opencl_type` base subobject). -/
theorem roundtrip_all_categories :
    (∀ (α : Type) (AS : address_space) (v : α),
      AddressSpaceVariableImpl.operatorRefGet
        (AddressSpaceVariableImpl.ctorFromValue AS v) = v)
  ∧ (∀ (α : Type) (AS : address_space) (v : α),
      AddressSpacePointerImpl.operatorRefGet
        (AddressSpacePointerImpl.ctorFromValue AS v) = v)
  ∧ (∀ (α : Type) (AS : address_space) (n : Nat) (init src : Fin n → α) (i : Fin n),
      AddressSpaceArrayImpl.operatorRefGetAt
        (AddressSpaceArrayImpl.ctorFromArray AS init src) i = src i)
  ∧ (∀ (α : Type) (AS : address_space) (v : α),
      AddressSpaceObjectImpl.toOpenclBase
        (AddressSpaceObjectImpl.ctorFromRValue AS v) = v) :=
  ⟨fun _ _ _ => rfl, fun _ _ _ => rfl, fun _ _ _ _ _ _ => rfl, fun _ _ _ => rfl⟩

/-- C2: the object wrapper's conversion operator, as written at line 402,
returns `this` — the pointer to the wrapper itself — and never a reference
to the held `opencl_type` delegate, contradicting its declared return type
`opencl_type &` and the comment above it. -/
theorem object_conversion_returns_self :
    (∀ (α : Type) (AS : address_space) (w : AddressSpaceObjectImpl α AS),
      AddressSpaceObjectImpl.operatorOpenclRef w
        = ObjectConversionResult.selfPointer w)
  ∧ (∀ (α : Type) (AS : address_space) (w : AddressSpaceObjectImpl α AS),
      ObjectConversionResult.isDelegateRef
        (AddressSpaceObjectImpl.operatorOpenclRef w) = false) :=
  ⟨fun _ _ _ => rfl, fun _ _ _ => rfl⟩

/-- The set of usable constructor forms of each wrapper class, transcribed
from the source together with the C++ rules that determine them:
a user-declared constructor suppresses the implicitly-declared default
constructor, a `using Base::Base` declaration does not, and an inherited
class's default, copy and move constructors are never inherited by a
`using` declaration. -/
inductive CtorKind
  | defaultCtor
  | fromValueCtor
  | fromRValueCtor
  | fromArrayCtor
  | fromListCtor
  | crossWrapperCtor
  | inheritedTypeCtor
  deriving DecidableEq, BEq

/-- Constructors of `AddressSpaceVariableImpl` (lines 174, 178): the
converting constructor from `const T &` and the re-defaulted default
constructor. -/
def AddressSpaceVariableImplCtors : List CtorKind :=
  [CtorKind.fromValueCtor, CtorKind.defaultCtor]

/-- Constructors of `AddressSpaceFundamentalImpl` (lines 207, 219, 239-245):
the constructors inherited from `AddressSpaceVariableImpl` (the converting
one; inherited default constructors do not exist), the re-declared
`= default` default constructor, and the cross-wrapper converting
constructor. -/
def AddressSpaceFundamentalImplCtors : List CtorKind :=
  [CtorKind.fromValueCtor, CtorKind.defaultCtor, CtorKind.crossWrapperCtor]

/-- Constructors of `AddressSpacePointerImpl` (line 269): the constructors
inherited from `AddressSpaceFundamentalImpl`, plus the implicitly-declared
default constructor — the class declares no constructor of its own, and a
`using` of inherited constructors does not suppress the implicit default
constructor. -/
def AddressSpacePointerImplCtors : List CtorKind :=
  [CtorKind.fromValueCtor, CtorKind.crossWrapperCtor, CtorKind.defaultCtor]

/-- Constructors of `AddressSpaceArrayImpl` (lines 300-302, 309-311, 323,
346-348): from a source array, from an initializer list, the re-declared
`= default` default constructor, and the cross-wrapper converting
constructor (the inherited `AddressSpaceBaseImpl` constructors add
nothing: that base declares no constructors). -/
def AddressSpaceArrayImplCtors : List CtorKind :=
  [CtorKind.fromArrayCtor, CtorKind.fromListCtor, CtorKind.defaultCtor,
   CtorKind.crossWrapperCtor]

/-- Constructors of `AddressSpaceObjectImpl` (lines 390, 394): the
constructors inherited from `opencl_type` through
`using opencl_type::opencl_type` — which never include the base's default,
copy or move constructors — and the user-declared converting constructor
`AddressSpaceObjectImpl(T &&)`.  That user-declared constructor suppresses
the implicitly-declared default constructor, and no `= default` default
constructor is re-declared in this class (unlike lines 219 and 323 of its
siblings), so the class has no default constructor. -/
def AddressSpaceObjectImplCtors : List CtorKind :=
  [CtorKind.inheritedTypeCtor, CtorKind.fromRValueCtor]

/-- C3: default construction is available in the scalar, pointer and array
wrapper categories — where it leaves the slot exactly as default
construction of a plain `T` leaves it — but not in the object category,
whose user-declared converting constructor suppresses the implicit default
constructor without a re-declared `= default` one. -/
theorem default_ctor_availability :
    (AddressSpaceFundamentalImplCtors.contains CtorKind.defaultCtor = true)
  ∧ (AddressSpacePointerImplCtors.contains CtorKind.defaultCtor = true)
  ∧ (AddressSpaceArrayImplCtors.contains CtorKind.defaultCtor = true)
  ∧ (AddressSpaceObjectImplCtors.contains CtorKind.defaultCtor = false)
  ∧ (∀ (α : Type) (AS : address_space) (dflt : α),
      AddressSpaceVariableImpl.ctorDefault AS dflt
        = AddressSpaceVariableImpl.ctorFromValue AS dflt)
  ∧ (∀ (α : Type) (AS : address_space) (n : Nat) (init : Fin n → α) (i : Fin n),
      (AddressSpaceArrayImpl.ctorDefault AS init).variable_ i = init i) := by
  refine ⟨by decide, by decide, by decide, by decide, fun _ _ _ => rfl, fun _ _ _ _ _ => rfl⟩

/-- C4: for the fundamental (scalar) wrappers, constructing a wrapper `B`
from a wrapper `A` stores exactly the value obtained by converting `A` to a
plain `T1` and then converting that value to `T2` by `T2`'s conversion
rules, for every pair of region tags; in particular a
constant-region rational wrapper constructed from a generic-region integer
wrapper holding `7` stores `7`. -/
theorem cross_conversion_composes_for_fundamental :
    (∀ (α β : Type) (AS1 AS2 : address_space) (conv : α → β) (dflt : β)
        (v : AddressSpaceFundamentalImpl α AS1),
      AddressSpaceFundamentalImpl.crossCtor AS1 AS2 conv dflt v
        = crossConversionSpec AS1 AS2 conv v)
  ∧ ((AddressSpaceFundamentalImpl.crossCtor
        address_space.generic_address_space address_space.constant_address_space
        (fun k : Int => (k : Rat)) 0
        (AddressSpaceVariableImpl.ctorFromValue
          address_space.generic_address_space (7 : Int))).variable_
      = (7 : Rat)) :=
  ⟨fun _ _ _ _ _ _ _ => rfl, by norm_num [AddressSpaceFundamentalImpl.crossCtor,
    AddressSpaceVariableImpl.ctorDefault, AddressSpaceVariableImpl.operatorRefGet,
    AddressSpaceVariableImpl.ctorFromValue]⟩

/-- C5 counterexample: a length mismatch is not rejected in every
construction path — the initializer-list constructor accepts a two-element
list for a three-element array wrapper (the construction succeeds, with no
validation), so the mismatch is not a compile-time type error. -/
theorem initlist_mismatch_is_accepted :
    ((AddressSpaceArrayImpl.ctorFromList address_space.local_address_space
        (fun _ : Fin 3 => (0 : Int)) [10, 20]).isSome = true)
  ∧ ((List.length ([10, 20] : List Int) == 3) = false) := by
  refine ⟨rfl, rfl⟩

/-- C5 amended: in the from-array construction path the source has exactly
the destination's array type, so the lengths agree by the type and every
write stays inside the array; the initializer-list path, by contrast,
performs no length validation — a list of at most `n` elements is accepted
whatever its length, and only a list longer than `n` makes the copy write
outside the array (undefined behavior, modelled as `none`, not a
compile-time error). -/
theorem array_construction_length_checking :
    (∀ (α : Type) (AS : address_space) (n : Nat) (init src : Fin n → α) (i : Fin n),
      (AddressSpaceArrayImpl.ctorFromArray AS init src).variable_ i = src i)
  ∧ (∀ (α : Type) (AS : address_space) (n : Nat) (init : Fin n → α) (list : List α),
      (AddressSpaceArrayImpl.ctorFromList AS init list).isSome
        = decide (list.length ≤ n)) := by
  refine ⟨fun _ _ _ _ _ _ => rfl, fun α AS n init list => ?_⟩
  by_cases h : list.length ≤ n <;>
    simp [AddressSpaceArrayImpl.ctorFromList, h]

/-- C6: on a build that is not a region-aware device build
(`sycl_device_only = false`), the qualifier-mapped storage type produced by
`OpenCLType` is the unqualified value type itself, for every type and every
region tag. -/
theorem host_build_storage_is_unqualified :
    ∀ (t : CppType) (as : address_space),
      OpenCLType false t as = plainQualifiedType t := by
  intro t as
  cases as <;> rfl

/-- C7: the dispatch `AddressSpaceImpl` is a function of the type shape
evaluated in the fixed priority pointer, then class, then array, else
fundamental: every shape resolves to exactly the category listed here, and
a pointer-shaped type — whatever it points to, arrays and classes
included — never resolves to the array or object category. -/
theorem category_dispatch_fixed_priority :
    (∀ u : CppType, AddressSpaceImplSelect (CppType.pointer u)
        = WrapperCategory.pointerImpl)
  ∧ (∀ tag : Nat, AddressSpaceImplSelect (CppType.cppclass tag)
        = WrapperCategory.objectImpl)
  ∧ (∀ (e : CppType) (n : Nat), AddressSpaceImplSelect (CppType.array e n)
        = WrapperCategory.arrayImpl)
  ∧ (∀ tag : Nat, AddressSpaceImplSelect (CppType.fundamental tag)
        = WrapperCategory.fundamentalImpl)
  ∧ (∀ u : CppType,
      ((AddressSpaceImplSelect (CppType.pointer u) == WrapperCategory.arrayImpl)
          = false)
      ∧ ((AddressSpaceImplSelect (CppType.pointer u) == WrapperCategory.objectImpl)
          = false)) :=
  ⟨fun _ => rfl, fun _ => rfl, fun _ _ => rfl, fun _ => rfl, fun _ => ⟨rfl, rfl⟩⟩

/-- C8: instantiating the pointer wrapper is gated by the compile-time
predicate of its `static_assert`, which holds exactly for pointer-shaped
types; and the pointer wrapper's construction, default construction,
cross-region conversion and convert-back behavior are definitionally those
of the scalar wrapper chain, unchanged. -/
theorem pointer_wrapper_static_check_and_delegation :
    (∀ u : CppType, AddressSpacePointerImplAssertPasses (CppType.pointer u) = true)
  ∧ (∀ tag : Nat, AddressSpacePointerImplAssertPasses (CppType.fundamental tag) = false)
  ∧ (∀ tag : Nat, AddressSpacePointerImplAssertPasses (CppType.cppclass tag) = false)
  ∧ (∀ (e : CppType) (n : Nat),
      AddressSpacePointerImplAssertPasses (CppType.array e n) = false)
  ∧ (∀ (α : Type) (AS : address_space) (v : α),
      AddressSpacePointerImpl.ctorFromValue AS v
        = AddressSpaceVariableImpl.ctorFromValue AS v)
  ∧ (∀ (α : Type) (AS : address_space) (dflt : α),
      AddressSpacePointerImpl.ctorDefault AS dflt
        = AddressSpaceVariableImpl.ctorDefault AS dflt)
  ∧ (∀ (α β : Type) (AS1 AS2 : address_space) (conv : α → β) (dflt : β)
        (v : AddressSpaceFundamentalImpl α AS1),
      AddressSpacePointerImpl.crossCtor AS1 AS2 conv dflt v
        = AddressSpaceFundamentalImpl.crossCtor AS1 AS2 conv dflt v)
  ∧ (∀ (α : Type) (AS : address_space) (w : AddressSpacePointerImpl α AS),
      AddressSpacePointerImpl.operatorRefGet w
        = AddressSpaceVariableImpl.operatorRefGet w) :=
  ⟨fun _ => rfl, fun _ => rfl, fun _ => rfl, fun _ _ => rfl,
   fun _ _ _ => rfl, fun _ _ _ => rfl, fun _ _ _ _ _ _ _ => rfl, fun _ _ _ => rfl⟩

/-- C9: constructing an array wrapper over `n` elements from an
initializer list of `k ≤ n` elements succeeds with no length validation;
the first `k` stored elements equal the list elements in list order, and
the trailing `n - k` elements are exactly what default construction left
there, untouched by the copy. -/
theorem initlist_copies_list_over_defaults {α : Type} (AS : address_space) {n : Nat}
    (init : Fin n → α) (list : List α) (h : list.length ≤ n) :
    ∃ w : AddressSpaceArrayImpl α AS n,
      AddressSpaceArrayImpl.ctorFromList AS init list = some w
      ∧ (∀ (i : Fin n) (hi : i.val < list.length),
          w.variable_ i = list.get ⟨i.val, hi⟩)
      ∧ (∀ i : Fin n, list.length ≤ i.val → w.variable_ i = init i) := by
  refine ⟨{ variable_ := fun i =>
      if hi : i.val < list.length then list.get ⟨i.val, hi⟩ else init i }, ?_, ?_, ?_⟩
  · simp [AddressSpaceArrayImpl.ctorFromList, h]
  · intro i hi
    simp [hi]
  · intro i hi
    have hlt : ¬ i.val < list.length := Nat.not_lt.mpr hi
    simp [hlt]

/-- C9 witness: a three-slot integer array wrapper in the local region,
default contents all `9`, constructed from the two-element list `[4, 5]`. -/
theorem initlist_copies_list_over_defaults_witness :
    List.length ([(4 : Int), 5]) ≤ 3
  ∧ ∃ w : AddressSpaceArrayImpl Int address_space.local_address_space 3,
      AddressSpaceArrayImpl.ctorFromList address_space.local_address_space
          (fun _ : Fin 3 => (9 : Int)) [4, 5] = some w
      ∧ (∀ (i : Fin 3) (hi : i.val < List.length ([(4 : Int), 5])),
          w.variable_ i = List.get [(4 : Int), 5] ⟨i.val, hi⟩)
      ∧ (∀ i : Fin 3, List.length ([(4 : Int), 5]) ≤ i.val
          → w.variable_ i = (fun _ : Fin 3 => (9 : Int)) i) :=
  ⟨by decide,
   initlist_copies_list_over_defaults address_space.local_address_space
     (fun _ : Fin 3 => (9 : Int)) [4, 5] (by decide)⟩

/-- C10: the conversion operator of the scalar, pointer and array wrappers
returns a mutable reference to the wrapper's single storage slot, not a
copy: a write through that reference is observed by every subsequent read
through the conversion, the post-state of a scalar write is exactly the
slot replaced (nothing else exists to be modified), and an array write at
index `i` changes index `i` and leaves every other index unchanged. -/
theorem conversion_reference_aliases_storage :
    (∀ (α : Type) (AS : address_space) (w : AddressSpaceVariableImpl α AS) (x : α),
      AddressSpaceVariableImpl.operatorRefGet
          (AddressSpaceVariableImpl.operatorRefSet w x) = x
      ∧ AddressSpaceVariableImpl.operatorRefSet w x
          = AddressSpaceVariableImpl.ctorFromValue AS x)
  ∧ (∀ (α : Type) (AS : address_space) (w : AddressSpacePointerImpl α AS) (x : α),
      AddressSpacePointerImpl.operatorRefGet
          (AddressSpacePointerImpl.operatorRefSet w x) = x)
  ∧ (∀ (α : Type) (AS : address_space) (n : Nat)
        (w : AddressSpaceArrayImpl α AS n) (i : Fin n) (x : α) (j : Fin n),
      AddressSpaceArrayImpl.operatorRefGetAt
          (AddressSpaceArrayImpl.operatorRefSetAt w i x) j
        = if j = i then x else AddressSpaceArrayImpl.operatorRefGetAt w j) :=
  ⟨fun _ _ _ _ => ⟨rfl, rfl⟩, fun _ _ _ _ => rfl, fun _ _ _ _ _ _ _ => rfl⟩

end Trisycl
